import Mathlib

/-!
Verification of the FHIRguard clinical resource analysis pipeline against its
specification.  The definitions below are a shallow embedding of
`src/celery_worker.py`, `src/services/validation_service.py` and
`src/api/endpoints.py`.  Vital-sign readings, which the Python code holds as
numbers and compares against decimal literals, are modelled as exact
rationals, so every threshold comparison in the source becomes a decidable
comparison on `ℚ`.
-/

namespace FHIRGuard

/-! ## Python string primitives

`normalize_id` in `src/celery_worker.py` is built from `str.replace` and
`str.strip`; both are modelled here on character lists. -/

/-- Fuel-driven core of the Python `str.replace`: scan left to right, replace
each non-overlapping occurrence of `pat`, and resume scanning after the
replaced occurrence (the result of a replacement is not rescanned).  Fuel
`s.length + 1` always suffices because every step consumes at least one
character of the scanned list. -/
def pyReplaceAux (pat rep : List Char) : Nat → List Char → List Char
  | 0, s => s
  | _ + 1, [] => []
  | n + 1, c :: t =>
    if pat ≠ [] ∧ pat.isPrefixOf (c :: t) then
      rep ++ pyReplaceAux pat rep n (List.drop (pat.length - 1) t)
    else
      c :: pyReplaceAux pat rep n t

/-- Python `s.replace(pat, rep)` on character lists. -/
def pyReplace (s pat rep : List Char) : List Char :=
  pyReplaceAux pat rep (s.length + 1) s

/-- Python `s.strip()` on character lists: drop whitespace from both ends. -/
def pyStrip (s : List Char) : List Char :=
  ((s.dropWhile Char.isWhitespace).reverse.dropWhile Char.isWhitespace).reverse

/-- Substring test: does `pat` occur (contiguously) inside `s`? -/
def hasSub (pat : List Char) : List Char → Bool
  | [] => pat.isPrefixOf []
  | c :: t => pat.isPrefixOf (c :: t) || hasSub pat t

/-- The pattern `urn:uuid:` stripped by `normalize_id`. -/
def urnPat : List Char := "urn:uuid:".data

/-- The pattern `Patient/` stripped by `normalize_id`. -/
def patientPat : List Char := "Patient/".data

/-- `normalize_id` from `src/celery_worker.py` lines 42-47: a falsy reference
(`None` or the empty string) yields `""`; otherwise remove every occurrence of
`urn:uuid:`, then every occurrence of `Patient/`, then strip surrounding
whitespace. -/
def normalize_id (ref : Option String) : String :=
  match ref with
  | none => ""
  | some s =>
    if s = "" then ""
    else String.mk (pyStrip (pyReplace (pyReplace s.data urnPat []) patientPat []))

/-! ## Report data model

Issue dictionaries in the source carry various subsets of the keys
`id`, `severity`, `title`, `explanation`; absent keys are `none` here.
Report attribution strings (`f"Patient/{pid}"`, `f"{src} -> Line {n}"`, ...)
are modelled structurally by the `Attr` type, one constructor per format
string appearing in the source. -/

structure Issue where
  id : Option Nat := none
  severity : Option String := none
  title : String
  explanation : String
deriving DecidableEq, Repr

/-- Report attribution labels, one constructor per format string in the
source: `"System"`, `f"{filename} (Batch Check)"`, `f"Patient/{pid}"`,
`f"File: {name} -> Line {n}"` and `f"Line {n}"` (endpoints NDJSON loops),
`f"{src} -> {rtype}/{rid}"` (endpoints bundle entries), and a plain string
label for single-resource reports. -/
inductive Attr where
  | system : Attr
  | batch (filename : String) : Attr
  | patient (pid : String) : Attr
  | fileLine (src : String) (n : Nat) : Attr
  | line (n : Nat) : Attr
  | entryRes (src : String) (rtype : String) (rid : String) : Attr
  | plain (s : String) : Attr
deriving DecidableEq, Repr

structure ReportEntry where
  resource : Attr
  issues : List Issue
deriving DecidableEq, Repr

/-! ## Vitals and the LOINC map -/

/-- The fixed, closed set of vital keys initialized for every patient in
`src/celery_worker.py` line 279. -/
inductive VKey where
  | sys_bp | dia_bp | hr | resp | temp | o2 | bmi | gluc | pain | gcs
deriving DecidableEq, Repr

/-- One vital snapshot: every key of the closed set is present but optional,
mirroring the `None`-initialized Python dict. -/
structure Vitals where
  sys_bp : Option ℚ := none
  dia_bp : Option ℚ := none
  hr : Option ℚ := none
  resp : Option ℚ := none
  temp : Option ℚ := none
  o2 : Option ℚ := none
  bmi : Option ℚ := none
  gluc : Option ℚ := none
  pain : Option ℚ := none
  gcs : Option ℚ := none
deriving DecidableEq, Repr

def Vitals.get (v : Vitals) : VKey → Option ℚ
  | .sys_bp => v.sys_bp
  | .dia_bp => v.dia_bp
  | .hr => v.hr
  | .resp => v.resp
  | .temp => v.temp
  | .o2 => v.o2
  | .bmi => v.bmi
  | .gluc => v.gluc
  | .pain => v.pain
  | .gcs => v.gcs

def Vitals.set (v : Vitals) : VKey → ℚ → Vitals
  | .sys_bp, q => { v with sys_bp := some q }
  | .dia_bp, q => { v with dia_bp := some q }
  | .hr, q => { v with hr := some q }
  | .resp, q => { v with resp := some q }
  | .temp, q => { v with temp := some q }
  | .o2, q => { v with o2 := some q }
  | .bmi, q => { v with bmi := some q }
  | .gluc, q => { v with gluc := some q }
  | .pain, q => { v with pain := some q }
  | .gcs, q => { v with gcs := some q }

/-- `LOINC_MAP` from `src/celery_worker.py` lines 29-39. -/
def LOINC_MAP (code : String) : Option VKey :=
  if code = "8480-6" then some .sys_bp
  else if code = "8462-4" then some .dia_bp
  else if code = "8867-4" then some .hr
  else if code = "9279-1" then some .resp
  else if code = "8310-5" then some .temp
  else if code = "2708-6" ∨ code = "59408-5" then some .o2
  else if code = "39156-5" then some .bmi
  else if code = "2339-0" ∨ code = "2345-7" then some .gluc
  else if code = "72514-3" ∨ code = "38214-3" then some .pain
  else if code = "9269-2" then some .gcs
  else none

/-! ## NEWS2 scoring (`calculate_news2`, lines 50-104)

The Python function accumulates the score with one independent `if`-chain
per vital category; the accumulation is decomposed here into one function
per category, summed in the source order.  Each chain is translated with
its branches in the source order. -/

def scoreResp : Option ℚ → Nat
  | none => 0
  | some rr => if rr ≤ 8 ∨ rr ≥ 25 then 3 else if rr ≥ 21 then 2
      else if rr ≤ 11 then 1 else 0

def scoreO2 : Option ℚ → Nat
  | none => 0
  | some o2 => if o2 ≤ 91 then 3 else if o2 ≤ 93 then 2
      else if o2 ≤ 95 then 1 else 0

def scoreSys : Option ℚ → Nat
  | none => 0
  | some s => if s ≤ 90 then 3 else if s ≤ 100 then 2
      else if s ≤ 110 then 1 else if s ≥ 220 then 3 else 0

def scoreHr : Option ℚ → Nat
  | none => 0
  | some hr => if hr ≤ 40 ∨ hr ≥ 131 then 3 else if hr ≥ 111 then 2
      else if hr ≤ 50 ∨ hr ≥ 91 then 1 else 0

def scoreGcs : Option ℚ → Nat
  | none => 0
  | some g => if g < 15 then 3 else 0

/-- The decimal thresholds 35.0, 39.1, 36.0, 38.1 of the source are written
as the exact rationals 35, 391/10, 36, 381/10 (`mkRat` keeps the comparison
kernel-computable; see `temp_threshold_values`). -/
def scoreTemp : Option ℚ → Nat
  | none => 0
  | some t => if t ≤ 35 then 3 else if t ≥ mkRat 391 10 then 2
      else if t ≤ 36 ∨ t ≥ mkRat 381 10 then 1 else 0

structure News2 where
  score : Nat
  risk : String
deriving DecidableEq, Repr

/-- `calculate_news2` from `src/celery_worker.py` lines 50-104. -/
def calculate_news2 (v : Vitals) : News2 :=
  let score := scoreResp v.resp + scoreO2 v.o2 + scoreSys v.sys_bp
      + scoreHr v.hr + scoreGcs v.gcs + scoreTemp v.temp
  { score := score,
    risk :=
      if score ≥ 7 then "CRITICAL (Emergency Response)"
      else if score ≥ 5 then "High (Urgent Review)"
      else if score ≥ 1 then "Medium (Monitor)"
      else "Low" }

/-! ## Patient records and the clinical rule engine -/

structure PatientRec where
  name : String
  age : Int
  gender : String
  vitals : Vitals
  conditions : List String
  medications : List String
deriving DecidableEq, Repr

/-- `check_clinical_rules` from `src/celery_worker.py` lines 107-129.  The
`patient` argument is unused in the source body as well. -/
def newsAlertIssue (news : News2) : Issue :=
  { title := "NEWS2 Score Alert: " ++ toString news.score,
    severity := some "High",
    explanation := "Patient deterioration risk is " ++ news.risk
      ++ ". Immediate clinical review required." }

def hypoglycemiaIssue (g : ℚ) : Issue :=
  { title := "Hypoglycemia", severity := some "High",
    explanation := "Blood glucose " ++ toString g ++ " mg/dL is dangerously low." }

def hyperglycemiaIssue (g : ℚ) : Issue :=
  { title := "Hyperglycemic Crisis", severity := some "High",
    explanation := "Blood glucose " ++ toString g
      ++ " mg/dL indicates diabetic ketoacidosis risk." }

def severePainIssue (pn : ℚ) : Issue :=
  { title := "Severe Pain", severity := some "Medium",
    explanation := "Pain score " ++ toString pn ++ "/10 requires management." }

def check_clinical_rules (_patient : PatientRec) (vitals : Vitals) : List Issue :=
  let news := calculate_news2 vitals
  let issues : List Issue :=
    if news.score ≥ 5 then [newsAlertIssue news] else []
  let issues : List Issue :=
    match vitals.gluc with
    | some g =>
      if g < 70 then issues ++ [hypoglycemiaIssue g]
      else if g > 300 then issues ++ [hyperglycemiaIssue g]
      else issues
    | none => issues
  let issues : List Issue :=
    match vitals.pain with
    | some pn => if pn ≥ 7 then issues ++ [severePainIssue pn] else issues
    | none => issues
  issues

/-! ## Resources

A `Resource` models exactly the dictionary fields the source reads; a field
whose key chain is absent in the JSON object is `none`.  `birthYear` models
the year successfully parsed from the `birthDate` field by
`datetime.strptime(bd, "%Y-%m-%d")`; a missing or unparseable `birthDate` is
`none` (the source then defaults the age to 30). -/

structure Resource where
  resourceType : Option String := none
  id : Option String := none
  birthYear : Option Int := none
  nameFamily : Option String := none
  gender : Option String := none
  subjectReference : Option String := none
  codeText : Option String := none
  codingCode : Option String := none
  medicationText : Option String := none
  valueQuantity : Option ℚ := none
deriving DecidableEq, Repr

/-- One bundle entry; `resource := none` models an entry whose `resource` key
is absent, which `entry.get("resource", {})` turns into an empty dict. -/
structure Entry where
  resource : Option Resource := none
deriving DecidableEq, Repr

def emptyResource : Resource := {}

/-! ## External profile validator (`src/services/validation_service.py`)

The HTTP transport is modelled by `NetOutcome`: the observable outcome of the
`requests.post` call in `_run_hl7_profile_validation`.  A status-200 body is
modelled at the JSON level (`ValidatorBody`): either unparseable, or a list
of outcomes each holding a list of issue dicts, where a response without the
`outcomes` wrapper is the one-outcome list `[response_data]`. -/

structure RawIssue where
  severity : Option String := none
  diagnostics : Option String := none
deriving DecidableEq, Repr

inductive ValidatorBody where
  | unparseable : ValidatorBody
  | parsed (outcomes : List (List RawIssue)) : ValidatorBody
deriving DecidableEq, Repr

inductive NetOutcome where
  | connectionError : NetOutcome
  | otherError (msg : String) : NetOutcome
  | status (code : Nat) (body : ValidatorBody) : NetOutcome
deriving DecidableEq, Repr

/-- Python `s.capitalize()`: first character upper-cased, the rest
lower-cased. -/
def pyCapitalize (s : String) : String :=
  match s.data with
  | [] => ""
  | c :: t => String.mk (c.toUpper :: t.map Char.toLower)

/-- Python `s.lower()`. -/
def pyLower (s : String) : String := String.mk (s.data.map Char.toLower)

/-- Translation of one validator issue dict inside
`_parse_validator_output`: `none` when the issue is a suppressed
informational validation-success diagnostic. -/
def parseValidatorIssue (i : RawIssue) : Option Issue :=
  let sev := pyCapitalize (i.severity.getD "error")
  if (sev = "Information" ∨ sev = "Warning")
      ∧ hasSub "validation success".data (pyLower (i.diagnostics.getD "")).data then
    none
  else
    some { severity := some (if sev = "Error" ∨ sev = "Fatal" then "High" else "Low"),
           title := "Profile Violation (" ++ sev ++ ")",
           explanation := i.diagnostics.getD "No details provided." }

/-- `_parse_validator_output` from `src/services/validation_service.py`
lines 108-134: a JSON-decode failure of the response yields `[]`. -/
def parse_validator_output : ValidatorBody → List Issue
  | .unparseable => []
  | .parsed outcomes => outcomes.foldl (fun acc oc => acc ++ oc.filterMap parseValidatorIssue) []

def validatorOfflineIssue : Issue :=
  { severity := some "High", title := "Validator Offline",
    explanation := "The Java validation engine is not reachable." }

/-- `_run_hl7_profile_validation` from `src/services/validation_service.py`
lines 64-106.  The request payload depends on the bundle, but the returned
issue list depends only on the network outcome, which is why the bundle is
not a parameter here. -/
def run_hl7_profile_validation (net : NetOutcome) : List Issue :=
  match net with
  | .status code body =>
    if code = 200 then parse_validator_output body
    else
      [{ severity := some "High", title := "Validator Server Error",
         explanation := "Java Server returned " ++ toString code
           ++ ". Check Java terminal for NPE." }]
  | .connectionError => [validatorOfflineIssue]
  | .otherError msg => [{ severity := some "Medium", title := "System Error", explanation := msg }]

/-! ## Bundle ingestion (`process_uploaded_file_task`, lines 216-248)

`Upload` models the five parse shapes the source distinguishes: a zip whose
archive cannot be opened, a readable zip (each member with its name and its
whole-member `json.loads` outcome), a document that parses to a `Bundle`, a
document that parses to a non-Bundle object, and the newline-delimited
fallback taken when the whole-document parse fails (each line blank,
unparseable, or one resource). -/

inductive ZipJson where
  | jbundle (entries : List Entry) : ZipJson
  | jother (r : Resource) : ZipJson
deriving DecidableEq, Repr

structure ZipMember where
  name : String
  /-- `none` models a member whose content fails `json.loads` (the source
  silently skips it: `except: pass` at line 235). -/
  content : Option ZipJson
deriving DecidableEq, Repr

inductive LineContent where
  | blank : LineContent
  | bad (msg : String) : LineContent
  | okRes (r : Resource) : LineContent
deriving DecidableEq, Repr

inductive Upload where
  | zipCorrupt : Upload
  | zip (members : List ZipMember) : Upload
  | docBundle (entries : List Entry) : Upload
  | docSingle (r : Resource) : Upload
  | ndLines (ls : List LineContent) : Upload
deriving DecidableEq, Repr

/-- Member filter and unpacking for the zip branch (lines 226-235). -/
def zipEntries : List ZipMember → List Entry
  | [] => []
  | m :: t =>
    (if (m.name.endsWith ".json" || m.name.endsWith ".ndjson")
        && !(m.name.startsWith "__") then
      match m.content with
      | some (.jbundle es) => es
      | some (.jother r) => [{ resource := some r }]
      | none => []
    else []) ++ zipEntries t

/-- Newline-delimited fallback (lines 244-248): blank lines are skipped and a
line failing `json.loads` is skipped silently (`except: pass`). -/
def ndEntries : List LineContent → List Entry
  | [] => []
  | .okRes r :: t => { resource := some r } :: ndEntries t
  | .blank :: t => ndEntries t
  | .bad _ :: t => ndEntries t

/-- The parsing phase of the task `try:` block.  An `.error` is an exception
raised before `patients_map` is assigned at line 262; the only such
exception in this model is the unopenable archive. -/
def tryParse : Upload → Except String (List Entry)
  | .zipCorrupt => .error "File is not a zip file"
  | .zip members => .ok (zipEntries members)
  | .docBundle entries => .ok entries
  | .docSingle r => .ok [{ resource := some r }]
  | .ndLines ls => .ok (ndEntries ls)

/-! ## Patient extraction (passes A and B, lines 261-303)

The patient map is a Python dict keyed by the normalized id: modelled as an
association list where assignment to an existing key replaces the value in
place and a new key is appended, preserving insertion order. -/

def PMap := List (String × PatientRec)

def mapSet : List (String × PatientRec) → String → PatientRec → List (String × PatientRec)
  | [], k, p => [(k, p)]
  | (k', p') :: t, k, p => if k' = k then (k, p) :: t else (k', p') :: mapSet t k p

def mapLookup : List (String × PatientRec) → String → Option PatientRec
  | [], _ => none
  | (k', p') :: t, k => if k' = k then some p' else mapLookup t k

/-- Pass A (lines 265-282): discover `Patient` resources and initialize their
records with every vital key present but unset. -/
def passA (currentYear : Int) (entries : List Entry) : List (String × PatientRec) :=
  entries.foldl
    (fun m e =>
      let res := e.resource.getD emptyResource
      if res.resourceType = some "Patient" then
        let pid := normalize_id res.id
        let age : Int :=
          match res.birthYear with
          | some y => currentYear - y
          | none => 30
        mapSet m pid
          { name := res.nameFamily.getD "Unknown",
            age := age,
            gender := res.gender.getD "Unknown",
            vitals := {},
            conditions := [],
            medications := [] }
      else m)
    []

/-- Pass B (lines 284-303): link context resources by normalized subject
reference; an unmatched reference is silently skipped. -/
def passB (m0 : List (String × PatientRec)) (entries : List Entry) : List (String × PatientRec) :=
  entries.foldl
    (fun m e =>
      let res := e.resource.getD emptyResource
      let rtype := res.resourceType
      let subj := normalize_id (some (res.subjectReference.getD ""))
      match mapLookup m subj with
      | none => m
      | some p =>
        if rtype = some "Condition" then
          mapSet m subj { p with conditions := p.conditions ++ [res.codeText.getD "Unknown"] }
        else if rtype = some "MedicationRequest" then
          mapSet m subj
            { p with medications := p.medications ++ [res.medicationText.getD "Unknown"] }
        else if rtype = some "Observation" then
          match res.codingCode, res.valueQuantity with
          | some code, some val =>
            (match LOINC_MAP code with
             | some k => mapSet m subj { p with vitals := p.vitals.set k val }
             | none => m)
          | _, _ => m
        else m)
    m0

/-! ## Anomaly detector adapter and pass C (lines 305-340) -/

/-- The fixed-order feature vector (lines 319-330): absent vitals become 0,
then a zero systolic pressure becomes 120 and a zero diastolic pressure
becomes 80. -/
def featureVector (p : PatientRec) : List ℚ :=
  let safe : Option ℚ → ℚ := fun o => o.getD 0
  let sys : ℚ := if safe p.vitals.sys_bp = 0 then 120 else safe p.vitals.sys_bp
  let dia : ℚ := if safe p.vitals.dia_bp = 0 then 80 else safe p.vitals.dia_bp
  [(p.age : ℚ), sys, dia, safe p.vitals.hr, safe p.vitals.resp, safe p.vitals.temp,
   safe p.vitals.o2, safe p.vitals.bmi, safe p.vitals.gluc, safe p.vitals.pain,
   safe p.vitals.gcs]

def anomalyIssue : Issue :=
  { severity := some "High", title := "Complex Clinical Anomaly",
    explanation := "Full-body vital signs pattern is statistically abnormal for this age group." }

/-- The ML block of pass C (lines 316-340): it runs only when systolic
pressure and heart rate are both present, and only when the fitted model is
loaded; `model` is the loaded classifier, `-1` its outlier verdict. -/
def anomalyEntries (model : Option (List ℚ → Int)) (pid : String) (p : PatientRec) :
    List ReportEntry :=
  match p.vitals.sys_bp, p.vitals.hr with
  | some _, some _ =>
    match model with
    | some f =>
      if f (featureVector p) = -1 then
        [{ resource := .patient pid, issues := [anomalyIssue] }]
      else []
    | none => []
  | _, _ => []

/-- Pass C (lines 305-340): per patient, one report entry per clinical-rule
issue, then the anomaly check. -/
def passC (model : Option (List ℚ → Int)) : List (String × PatientRec) → List ReportEntry
  | [] => []
  | (pid, p) :: t =>
    ((check_clinical_rules p p.vitals).map
      (fun i => { resource := Attr.patient pid, issues := [i] }))
      ++ anomalyEntries model pid p ++ passC model t

/-! ## The pipeline task (`process_uploaded_file_task`, lines 204-364) -/

structure Summary where
  filename : String
  total_resources : Nat
deriving DecidableEq, Repr

/-- The returned value: `summary := none` models the `{"summary": {},
"reports": []}` early return taken when the `ValidationService` failed to
initialize. -/
structure PipelineResult where
  summary : Option Summary
  reports : List ReportEntry
deriving DecidableEq, Repr

/-- A Python exception escaping the task function. -/
inductive PyErr where
  | nameError (var : String) : PyErr
deriving DecidableEq, Repr

/-- `process_uploaded_file_task` from `src/celery_worker.py` lines 204-364.
`serviceInit` is whether the module-level `ValidationService()` construction
succeeded; `model` is its loaded anomaly classifier; `net` is the outcome of
the validator HTTP call.  The summary fields derived from wall-clock time
and byte size are omitted.  In the `except` branch (lines 342-344) the
handler appends the `System` issue to `final_reports`, but line 350 then
evaluates `if patients_map:` and `patients_map` was only assigned at line
262, inside the `try:` and after every point where this model can raise, so
the function raises `NameError` and returns nothing. -/
def process_uploaded_file_task (serviceInit : Bool) (currentYear : Int)
    (model : Option (List ℚ → Int)) (net : NetOutcome)
    (filename : String) (u : Upload) : Except PyErr PipelineResult :=
  if serviceInit = false then .ok { summary := none, reports := [] }
  else
    match tryParse u with
    | .error msg =>
      let _final_reports : List ReportEntry :=
        [{ resource := .system,
           issues := [{ id := some 999, title := "Error", explanation := msg }] }]
      .error (.nameError "patients_map")
    | .ok entries =>
      let batch : List ReportEntry :=
        if entries.isEmpty then []
        else
          let bundle_issues := run_hl7_profile_validation net
          if bundle_issues.isEmpty then []
          else [{ resource := .batch filename, issues := bundle_issues }]
      let pmap := passB (passA currentYear entries) entries
      .ok { summary := some { filename := filename, total_resources := entries.length },
            reports := batch ++ passC model pmap }

/-! ## Synchronous endpoint (`src/api/endpoints.py`) -/

/-- Modelled from the spec: the structural Issue reported for a resource
lacking the `resourceType` discriminator (spec sections 3 and 4.6). -/
def missingTypeIssue : Issue :=
  { severity := some "High", title := "Missing resourceType",
    explanation := "Resource lacks the mandatory resourceType discriminator." }

/-- Modelled from the spec: `ValidationService.validate_and_analyze` is
called throughout `src/api/endpoints.py` but its definition is not under
`src/`.  Spec section 4.6 describes the per-resource check it performs:
(a) reject any resource lacking a type discriminator as a structural Issue;
(b) otherwise delegate to the external profile-validation collaborator,
abstracted here as the parameter `profile`. -/
def validate_and_analyze (profile : Resource → List Issue) (r : Resource) : List Issue :=
  match r.resourceType with
  | none => [missingTypeIssue]
  | some _ => profile r

/-- The Bundle branch of `process_fhir_resource` (`src/api/endpoints.py`
lines 20-29), with the running `enumerate` index `i`: entries without a
(truthy) `resource` are skipped but still counted; the report label falls
back to `entry-<i+1>` when the resource has no id and to `Unknown` when it
has no `resourceType`. -/
def processBundleFrom (profile : Resource → List Issue) (src : String) (i : Nat) :
    List Entry → List ReportEntry
  | [] => []
  | e :: t =>
    match e.resource with
    | some r =>
      { resource := Attr.entryRes src (r.resourceType.getD "Unknown")
          (r.id.getD ("entry-" ++ toString (i + 1))),
        issues := validate_and_analyze profile r } :: processBundleFrom profile src (i + 1) t
    | none => processBundleFrom profile src (i + 1) t

/-- The NDJSON loop run on a `.ndjson` zip member by `validate_fhir`
(`src/api/endpoints.py` lines 57-71), with the running `enumerate` index
`i`: blank lines are skipped but counted, a line failing `json.loads` yields
exactly one report entry labelled `File: <name> -> Line <n>` carrying the
Invalid JSON Object issue, and the loop continues. -/
def processZipNdjsonFrom (profile : Resource → List Issue) (srcName : String) (i : Nat) :
    List LineContent → List ReportEntry
  | [] => []
  | .blank :: t => processZipNdjsonFrom profile srcName (i + 1) t
  | .bad msg :: t =>
    { resource := Attr.fileLine srcName (i + 1),
      issues := [{ id := some 99, title := "Invalid JSON Object",
                   explanation := "Error: " ++ msg }] }
      :: processZipNdjsonFrom profile srcName (i + 1) t
  | .okRes r :: t =>
    { resource := Attr.fileLine srcName (i + 1),
      issues := validate_and_analyze profile r }
      :: processZipNdjsonFrom profile srcName (i + 1) t

/-! ## Concrete inputs used by the example-based properties -/

/-- The example vital snapshot of the spec (section 8, NEWS2 example). -/
def exVitals : Vitals :=
  { resp := some 26, o2 := some 90, sys_bp := some 85, hr := some 135,
    gcs := some 15, temp := some 37 }

def patientP1 : Resource := { resourceType := some "Patient", id := some "P1" }

/-- An `Observation` with the systolic-pressure LOINC code, referencing
patient `P1` through a `urn:uuid:` reference. -/
def obsSysP1 (q : ℚ) : Resource :=
  { resourceType := some "Observation", subjectReference := some "urn:uuid:P1",
    codingCode := some "8480-6", valueQuantity := some q }

/-- Bundle of the spec example for vital extraction, extended with a second
systolic observation to exercise the last-writer-wins policy. -/
def bundleC7 (q1 q2 : ℚ) : List Entry :=
  [{ resource := some patientP1 }, { resource := some (obsSysP1 q1) },
   { resource := some (obsSysP1 q2) }]

/-- Bundle of the spec example for vital extraction: one `Patient` with id
`P1` and one systolic `Observation` with value 180. -/
def bundleP1 : List Entry :=
  [{ resource := some patientP1 }, { resource := some (obsSysP1 180) }]

/-- An id-less `Patient` resource. -/
def patientNoId : Resource := { resourceType := some "Patient" }

/-- A `Condition` with no subject reference. -/
def condNoSubject : Resource :=
  { resourceType := some "Condition", codeText := some "Chest pain" }

/-- A `MedicationRequest` with no subject reference. -/
def medNoSubject : Resource :=
  { resourceType := some "MedicationRequest", medicationText := some "Aspirin" }

/-- An `Observation` (heart rate 99) with no subject reference. -/
def obsNoSubject : Resource :=
  { resourceType := some "Observation", codingCode := some "8867-4", valueQuantity := some 99 }

/-- A `Patient` resource with no id, followed by subject-less context
resources of the three linked types. -/
def bundleNoId : List Entry :=
  [{ resource := some patientNoId }, { resource := some condNoSubject },
   { resource := some medNoSubject }, { resource := some obsNoSubject }]

/-- A freshly initialized patient record (pass A output for a resource with
no demographic fields). -/
def freshPatient : PatientRec :=
  { name := "Unknown", age := 30, gender := "Unknown", vitals := {},
    conditions := [], medications := [] }

/-! ## Helper lemmas about the string primitives -/

theorem dropWhile_self_idem {α : Type} (p : α → Bool) (l : List α) :
    (l.dropWhile p).dropWhile p = l.dropWhile p := by
  induction l with
  | nil => rfl
  | cons c t ih =>
    by_cases h : p c
    · simp [List.dropWhile, h, ih]
    · simp [List.dropWhile, h]

theorem dropWhile_eq_self_of_append {α : Type} (p : α → Bool) {u w : List α}
    (h : (u ++ w).dropWhile p = u ++ w) : u.dropWhile p = u := by
  cases u with
  | nil => rfl
  | cons c t =>
    by_cases hc : p c
    · exfalso
      have h1 : ((c :: t) ++ w).dropWhile p = (t ++ w).dropWhile p := by
        simp [List.dropWhile, hc]
      have h2 := congrArg List.length h
      rw [h1] at h2
      have hle := (List.dropWhile_suffix (l := t ++ w) p).length_le
      simp at h2 hle
      omega
    · simp [List.dropWhile, hc]

theorem pyStrip_idem (s : List Char) : pyStrip (pyStrip s) = pyStrip s := by
  unfold pyStrip
  set p := Char.isWhitespace with hp
  set a := s.dropWhile p with ha
  set b := a.reverse.dropWhile p with hb
  have hidem : a.dropWhile p = a := by rw [ha]; exact dropWhile_self_idem p s
  have hdecomp : a = b.reverse ++ (a.reverse.takeWhile p).reverse := by
    conv_lhs => rw [← a.reverse_reverse]
    rw [hb, ← List.reverse_append, List.takeWhile_append_dropWhile]
  have h1 : b.reverse.dropWhile p = b.reverse := by
    apply dropWhile_eq_self_of_append p (w := (a.reverse.takeWhile p).reverse)
    rw [← hdecomp]; exact hidem
  rw [h1, List.reverse_reverse, hb, dropWhile_self_idem]

theorem pyReplaceAux_no_match (pat rep : List Char) :
    ∀ n s, s.length < n → hasSub pat s = false → pyReplaceAux pat rep n s = s := by
  intro n
  induction n with
  | zero => intro s h _; omega
  | succ n ih =>
    intro s hlen hsub
    cases s with
    | nil => rfl
    | cons c t =>
      have hcons : pat.isPrefixOf (c :: t) = false ∧ hasSub pat t = false := by
        simpa [hasSub, Bool.or_eq_false_iff] using hsub
      rw [pyReplaceAux, if_neg, ih t (by simp at hlen; omega) hcons.2]
      intro hcon
      rw [hcons.1] at hcon
      exact Bool.false_ne_true hcon.2

theorem pyReplace_no_match {s pat : List Char} (rep : List Char)
    (h : hasSub pat s = false) : pyReplace s pat rep = s :=
  pyReplaceAux_no_match pat rep (s.length + 1) s (Nat.lt_succ_self _) h

theorem string_mk_data (s : String) : String.mk s.data = s := by
  cases s; rfl

/-- On a nonempty input, `normalize_id` is the strip of the two replaces. -/
theorem normalize_id_data (r : String) (hr : r ≠ "") :
    (normalize_id (some r)).data
      = pyStrip (pyReplace (pyReplace r.data urnPat []) patientPat []) := by
  simp [normalize_id, hr]

/-- The output of `normalize_id` is always a `pyStrip` image or empty, so
stripping it again changes nothing. -/
theorem pyStrip_normalize_id (r : String) :
    pyStrip (normalize_id (some r)).data = (normalize_id (some r)).data := by
  by_cases hr : r = ""
  · simp [normalize_id, hr, pyStrip]
  · rw [normalize_id_data r hr, pyStrip_idem]

theorem normalize_id_idem_of_no_occurrence (r : String)
    (h1 : hasSub urnPat (normalize_id (some r)).data = false)
    (h2 : hasSub patientPat (normalize_id (some r)).data = false) :
    normalize_id (some (normalize_id (some r))) = normalize_id (some r) := by
  by_cases hout : normalize_id (some r) = ""
  · rw [hout]; rfl
  · conv_lhs => rw [normalize_id]
    rw [if_neg hout, pyReplace_no_match _ h1, pyReplace_no_match _ h2,
      pyStrip_normalize_id, string_mk_data]

/-- A string starting with a long prefix differs from any shorter string. -/
theorem append_ne_of_length_lt (a x t : String) (h : t.length < a.length) :
    a ++ x ≠ t := by
  intro he
  have hlen := congrArg String.length he
  rw [String.length_append] at hlen
  omega

/-- The `mkRat` constants of `scoreTemp` are exactly the decimal literals
39.1 and 38.1 of the source. -/
theorem temp_threshold_values :
    mkRat 391 10 = (39.1 : ℚ) ∧ mkRat 381 10 = (38.1 : ℚ) := by
  constructor <;> norm_num [mkRat, Rat.normalize]

/-! ## Claim theorems -/

/-- Claim C1 (counterexample): on the vital snapshot of the spec example,
the NEWS2 score computed by `calculate_news2` is 12, not the claimed 15. -/
theorem claim_C1_cex :
    (calculate_news2 exVitals).score = 12 ∧ (calculate_news2 exVitals).score ≠ 15 := by
  decide

/-- Claim C1 (amended): on the snapshot `resp 26, o2 90, sys_bp 85, hr 135,
gcs 15, temp 37` the per-category contributions are 3 (respiration),
3 (oxygen saturation), 3 (systolic pressure), 3 (pulse), 0 (consciousness),
0 (temperature); the total score is 12 and the risk tier is Critical under
the step function evaluated highest-threshold-first. -/
theorem claim_C1 :
    scoreResp (some 26) = 3 ∧ scoreO2 (some 90) = 3 ∧ scoreSys (some 85) = 3
    ∧ scoreHr (some 135) = 3 ∧ scoreGcs (some 15) = 0 ∧ scoreTemp (some 37) = 0
    ∧ calculate_news2 exVitals
        = { score := 12, risk := "CRITICAL (Emergency Response)" } := by
  decide

/-- Claim C2 (code bug): on an archive that cannot be opened, the task does
not return a Report at all: the `except` handler builds the system-level
Issue, but the code after it reads the never-assigned `patients_map` local
variable and the task dies with a `NameError`, whatever the model, the
validator outcome and the current year are. -/
theorem claim_C2 (currentYear : Int) (model : Option (List ℚ → Int))
    (net : NetOutcome) (filename : String) :
    process_uploaded_file_task true currentYear model net filename .zipCorrupt
      = .error (.nameError "patients_map") := rfl

/-- Claim C7: during context extraction an `Observation` whose first coding
code is in the LOINC map and carries a numeric value sets that vital on the
referenced patient, last writer wins; in particular the spec example bundle
(one `Patient` P1, one systolic `Observation` 180 referencing
`urn:uuid:P1`) yields `vitals.sys_bp = 180` for P1. -/
theorem claim_C7 (y : Int) (q1 q2 : ℚ) :
    (mapLookup (passB (passA y bundleP1) bundleP1) "P1").map
        (fun p => p.vitals.sys_bp) = some (some 180)
    ∧ (mapLookup (passB (passA y (bundleC7 q1 q2)) (bundleC7 q1 q2)) "P1").map
        (fun p => p.vitals.sys_bp) = some (some q2) :=
  ⟨rfl, rfl⟩

/-- Claim C9 (counterexample): reference normalization is not idempotent:
removing every occurrence of `urn:uuid:` from `urnurn:uuid::uuid:X`
reassembles a fresh `urn:uuid:` prefix, so a second normalization strips
further. -/
theorem claim_C9_cex :
    normalize_id (some (normalize_id (some "urnurn:uuid::uuid:X")))
      ≠ normalize_id (some "urnurn:uuid::uuid:X") := by
  decide

/-- Claim C9 (amended): normalization is idempotent on every reference whose
normal form contains no further occurrence of the stripped patterns
`urn:uuid:` and `Patient/`. -/
theorem claim_C9 (r : String)
    (h1 : hasSub urnPat (normalize_id (some r)).data = false)
    (h2 : hasSub patientPat (normalize_id (some r)).data = false) :
    normalize_id (some (normalize_id (some r))) = normalize_id (some r) :=
  normalize_id_idem_of_no_occurrence r h1 h2

/-- Witness for `claim_C9` at the reference `urn:uuid:ABC`. -/
theorem claim_C9_witness :
    (hasSub urnPat (normalize_id (some "urn:uuid:ABC")).data = false
      ∧ hasSub patientPat (normalize_id (some "urn:uuid:ABC")).data = false)
    ∧ normalize_id (some (normalize_id (some "urn:uuid:ABC")))
        = normalize_id (some "urn:uuid:ABC") :=
  ⟨⟨by decide, by decide⟩, claim_C9 "urn:uuid:ABC" (by decide) (by decide)⟩

/-- Claim C10: a `Patient` with no id is stored under the empty-string key
(`normalize_id` of a missing id), a missing subject reference also
normalizes to the empty string, and on the concrete bundle the subject-less
`Condition`, `MedicationRequest` and `Observation` are all linked to the
id-less patient record rather than dropped. -/
theorem claim_C10 (y : Int) (r : Resource) (h : r.subjectReference = none) :
    normalize_id none = ""
    ∧ normalize_id (some (r.subjectReference.getD "")) = ""
    ∧ mapLookup (passB (passA y bundleNoId) bundleNoId) ""
        = some { name := "Unknown", age := 30, gender := "Unknown",
                 vitals := { hr := some 99 }, conditions := ["Chest pain"],
                 medications := ["Aspirin"] } := by
  refine ⟨rfl, ?_, rfl⟩
  rw [h]
  rfl

/-- Splitting the endpoint NDJSON loop at any point of the line list. -/
theorem processZipNdjsonFrom_append (profile : Resource → List Issue) (src : String) :
    ∀ (pre post : List LineContent) (i : Nat),
      processZipNdjsonFrom profile src i (pre ++ post)
        = processZipNdjsonFrom profile src i pre
          ++ processZipNdjsonFrom profile src (i + pre.length) post := by
  intro pre
  induction pre with
  | nil => intro post i; simp [processZipNdjsonFrom]
  | cons c t ih =>
    intro post i
    cases c with
    | blank =>
      rw [List.cons_append, processZipNdjsonFrom, processZipNdjsonFrom, ih]
      simp [Nat.add_comm, Nat.add_assoc, Nat.add_left_comm]
    | bad msg =>
      rw [List.cons_append, processZipNdjsonFrom, processZipNdjsonFrom, ih]
      simp [Nat.add_comm, Nat.add_assoc, Nat.add_left_comm]
    | okRes r =>
      rw [List.cons_append, processZipNdjsonFrom, processZipNdjsonFrom, ih]
      simp [Nat.add_comm, Nat.add_assoc, Nat.add_left_comm]

/-- Every report entry of the endpoint NDJSON loop carries a line label
whose number lies in the range of the processed window. -/
theorem processZipNdjsonFrom_label (profile : Resource → List Issue) (src : String) :
    ∀ (l : List LineContent) (i : Nat) (e : ReportEntry),
      e ∈ processZipNdjsonFrom profile src i l →
      ∃ j, e.resource = Attr.fileLine src j ∧ i + 1 ≤ j ∧ j ≤ i + l.length := by
  intro l
  induction l with
  | nil => intro i e he; exact absurd he (List.not_mem_nil e)
  | cons c t ih =>
    intro i e he
    cases c with
    | blank =>
      obtain ⟨j, hj, h1, h2⟩ := ih (i + 1) e he
      exact ⟨j, hj, by omega, by simp; omega⟩
    | bad msg =>
      rw [processZipNdjsonFrom, List.mem_cons] at he
      rcases he with he | he
      · exact ⟨i + 1, by rw [he], le_refl _, by simp⟩
      · obtain ⟨j, hj, h1, h2⟩ := ih (i + 1) e he
        exact ⟨j, hj, by omega, by simp; omega⟩
    | okRes r =>
      rw [processZipNdjsonFrom, List.mem_cons] at he
      rcases he with he | he
      · exact ⟨i + 1, by rw [he], le_refl _, by simp⟩
      · obtain ⟨j, hj, h1, h2⟩ := ih (i + 1) e he
        exact ⟨j, hj, by omega, by simp; omega⟩

/-- Claim C3 (counterexample): in the pipeline ingestion, a non-blank line
that fails to parse yields no Issue at all: the run on a single
unparseable line returns a report with zero issues (the line is silently
skipped), not one structural Issue. -/
theorem claim_C3_cex :
    process_uploaded_file_task true 2026 none .connectionError "f.ndjson"
      (.ndLines [.bad "Expecting value"])
      = .ok { summary := some { filename := "f.ndjson", total_resources := 0 },
              reports := [] } := rfl

/-- Claim C3 (amended): in the synchronous endpoint ingestion of an NDJSON
archive member, a non-blank line failing to parse yields exactly one Issue
entry attributed to that member and line number, and processing of the
remaining lines continues: the loop output splits around the bad line, and
exactly one report entry in the whole output carries that line label. -/
theorem claim_C3 (profile : Resource → List Issue) (src msg : String)
    (pre post : List LineContent) :
    processZipNdjsonFrom profile src 0 (pre ++ .bad msg :: post)
      = processZipNdjsonFrom profile src 0 pre
        ++ { resource := Attr.fileLine src (pre.length + 1),
             issues := [{ id := some 99, title := "Invalid JSON Object",
                          explanation := "Error: " ++ msg }] }
          :: processZipNdjsonFrom profile src (pre.length + 1) post
    ∧ (processZipNdjsonFrom profile src 0 (pre ++ .bad msg :: post)).countP
        (fun e => decide (e.resource = Attr.fileLine src (pre.length + 1))) = 1 := by
  have hsplit := processZipNdjsonFrom_append profile src pre (.bad msg :: post) 0
  rw [Nat.zero_add] at hsplit
  rw [processZipNdjsonFrom] at hsplit
  refine ⟨hsplit, ?_⟩
  rw [hsplit, List.countP_append, List.countP_cons]
  have hpre : (processZipNdjsonFrom profile src 0 pre).countP
      (fun e => decide (e.resource = Attr.fileLine src (pre.length + 1))) = 0 := by
    rw [List.countP_eq_zero]
    intro e he
    obtain ⟨j, hj, h1, h2⟩ := processZipNdjsonFrom_label profile src pre 0 e he
    simp only [hj, decide_eq_true_eq, Attr.fileLine.injEq, not_and]
    intro _ hcon
    omega
  have hpost : (processZipNdjsonFrom profile src (pre.length + 1) post).countP
      (fun e => decide (e.resource = Attr.fileLine src (pre.length + 1))) = 0 := by
    rw [List.countP_eq_zero]
    intro e he
    obtain ⟨j, hj, h1, h2⟩ := processZipNdjsonFrom_label profile src post (pre.length + 1) e he
    simp only [hj, decide_eq_true_eq, Attr.fileLine.injEq, not_and]
    intro _ hcon
    omega
  simp [hpre, hpost]

/-- Splitting the endpoint Bundle loop at any point of the entry list. -/
theorem processBundleFrom_append (profile : Resource → List Issue) (src : String) :
    ∀ (pre post : List Entry) (i : Nat),
      processBundleFrom profile src i (pre ++ post)
        = processBundleFrom profile src i pre
          ++ processBundleFrom profile src (i + pre.length) post := by
  intro pre
  induction pre with
  | nil => intro post i; simp [processBundleFrom]
  | cons e t ih =>
    intro post i
    cases he : e.resource with
    | some r =>
      rw [List.cons_append, processBundleFrom, processBundleFrom, he, ih]
      simp [Nat.add_comm, Nat.add_assoc, Nat.add_left_comm]
    | none =>
      rw [List.cons_append, processBundleFrom, processBundleFrom, he, ih]
      simp [Nat.add_comm, Nat.add_assoc, Nat.add_left_comm]

/-- Claim C4: in the endpoint Bundle walk, every present resource lacking
the `resourceType` discriminator yields a report entry holding exactly the
one structural Issue, with the entries before and after it processed
unchanged, whatever the other resources of the collection are. -/
theorem claim_C4 (profile : Resource → List Issue) (src : String)
    (pre post : List Entry) (r : Resource) (h : r.resourceType = none) :
    processBundleFrom profile src 0 (pre ++ { resource := some r } :: post)
      = processBundleFrom profile src 0 pre
        ++ { resource := Attr.entryRes src "Unknown"
               (r.id.getD ("entry-" ++ toString (pre.length + 1))),
             issues := [missingTypeIssue] }
          :: processBundleFrom profile src (pre.length + 1) post := by
  have hsplit := processBundleFrom_append profile src pre ({ resource := some r } :: post) 0
  rw [Nat.zero_add] at hsplit
  rw [processBundleFrom] at hsplit
  simp only [validate_and_analyze, h] at hsplit
  exact hsplit

/-- Witness for `claim_C4` at a one-entry bundle whose resource has an id
but no `resourceType`. -/
theorem claim_C4_witness :
    (({ id := some "X" } : Resource).resourceType = none)
    ∧ processBundleFrom (fun _ => []) "s" 0 [{ resource := some { id := some "X" } }]
        = [{ resource := Attr.entryRes "s" "Unknown" "X", issues := [missingTypeIssue] }] :=
  ⟨rfl, claim_C4 (fun _ => []) "s" [] [] { id := some "X" } rfl⟩

/-- Claim C5: the anomaly adapter emits an Issue iff systolic pressure and
heart rate are both present, the classifier is loaded, and the classifier
returns the outlier verdict `-1` on the fixed-order feature vector; with no
loaded classifier it is a no-op, and when it emits, it emits exactly the one
High-severity anomaly entry. -/
theorem claim_C5 (model : Option (List ℚ → Int)) (pid : String) (p : PatientRec) :
    anomalyEntries none pid p = []
    ∧ (anomalyEntries model pid p ≠ []
        ↔ p.vitals.sys_bp ≠ none ∧ p.vitals.hr ≠ none
          ∧ ∃ f, model = some f ∧ f (featureVector p) = -1)
    ∧ (anomalyEntries model pid p = []
        ∨ anomalyEntries model pid p
            = [{ resource := Attr.patient pid, issues := [anomalyIssue] }]) := by
  rcases hs : p.vitals.sys_bp with _ | s
  · rcases hh : p.vitals.hr with _ | h <;> cases model <;> simp [anomalyEntries, hs, hh]
  · rcases hh : p.vitals.hr with _ | h
    · cases model <;> simp [anomalyEntries, hs, hh]
    · cases model with
      | none => simp [anomalyEntries, hs, hh]
      | some f =>
        by_cases hf : f (featureVector p) = -1 <;> simp [anomalyEntries, hs, hh, hf]

/-- Every issue produced by the clinical rule engine carries one of its four
titles. -/
theorem check_clinical_rules_titles (p : PatientRec) (v : Vitals) :
    ∀ i ∈ check_clinical_rules p v,
      i.title = "NEWS2 Score Alert: " ++ toString (calculate_news2 v).score
      ∨ i.title = "Hypoglycemia" ∨ i.title = "Hyperglycemic Crisis"
      ∨ i.title = "Severe Pain" := by
  intro i hi
  rcases hg : v.gluc with _ | g <;> rcases hp : v.pain with _ | pn <;>
    simp only [check_clinical_rules, hg, hp] at hi <;>
    split_ifs at hi <;>
    simp only [newsAlertIssue, hypoglycemiaIssue, hyperglycemiaIssue, severePainIssue,
      List.mem_append, List.mem_singleton, List.mem_nil_iff, List.nil_append,
      or_false, false_or] at hi <;>
    (repeat' rcases hi with hi | hi) <;> simp

/-- No entry of pass C carries a "Validator Offline" issue. -/
theorem passC_no_offline (model : Option (List ℚ → Int)) :
    ∀ (pm : List (String × PatientRec)) (e : ReportEntry), e ∈ passC model pm →
      ∀ i ∈ e.issues, i.title ≠ "Validator Offline" := by
  intro pm
  induction pm with
  | nil => intro e he; exact absurd he (List.not_mem_nil e)
  | cons kv t ih =>
    obtain ⟨pid, p⟩ := kv
    intro e he i hi
    rw [passC, List.append_assoc, List.mem_append] at he
    rcases he with he | he
    · obtain ⟨iss, hiss, hfe⟩ := List.mem_map.mp he
      subst hfe
      simp only [List.mem_singleton] at hi
      subst hi
      rcases check_clinical_rules_titles p p.vitals i hiss with ht | ht | ht | ht <;>
        rw [ht]
      · exact append_ne_of_length_lt _ _ _ (by decide)
      · decide
      · decide
      · decide
    · rw [List.mem_append] at he
      rcases he with he | he
      · rcases hs : p.vitals.sys_bp with _ | s <;> rcases hh : p.vitals.hr with _ | h <;>
          cases model <;>
          simp only [anomalyEntries, hs, hh] at he <;>
          first
          | exact absurd he (List.not_mem_nil e)
          | (split_ifs at he <;>
             first
             | exact absurd he (List.not_mem_nil e)
             | (simp only [List.mem_singleton] at he
                subst he
                simp only [List.mem_singleton] at hi
                subst hi
                decide))
      · exact ih e he i hi

/-- Claim C6: a run whose validator connection fails still completes and
returns the Report; its reports are exactly one batch entry holding the one
High-severity "Validator Offline" Issue followed by the unchanged analysis
entries, which are the whole report of a run whose validator returns no
issues, and no analysis entry carries a "Validator Offline" issue. -/
theorem claim_C6 (currentYear : Int) (model : Option (List ℚ → Int))
    (filename : String) (u : Upload) (entries : List Entry)
    (h : tryParse u = .ok entries) (hne : entries ≠ []) :
    process_uploaded_file_task true currentYear model .connectionError filename u
      = .ok { summary := some { filename := filename, total_resources := entries.length },
              reports := { resource := Attr.batch filename,
                           issues := [validatorOfflineIssue] }
                :: passC model (passB (passA currentYear entries) entries) }
    ∧ process_uploaded_file_task true currentYear model (.status 200 (.parsed []))
        filename u
      = .ok { summary := some { filename := filename, total_resources := entries.length },
              reports := passC model (passB (passA currentYear entries) entries) }
    ∧ ∀ e ∈ passC model (passB (passA currentYear entries) entries),
        ∀ i ∈ e.issues, i.title ≠ "Validator Offline" := by
  have hempty : entries.isEmpty = false := by simp [List.isEmpty_iff, hne]
  refine ⟨?_, ?_, passC_no_offline model _⟩
  · simp [process_uploaded_file_task, h, hempty, run_hl7_profile_validation]
  · simp [process_uploaded_file_task, h, hempty, run_hl7_profile_validation,
      parse_validator_output]

/-- Witness for `claim_C6` on a one-patient upload. -/
theorem claim_C6_witness :
    (tryParse (.docSingle patientP1) = .ok [{ resource := some patientP1 }]
      ∧ ([{ resource := some patientP1 }] : List Entry) ≠ [])
    ∧ process_uploaded_file_task true 2026 none .connectionError "a.json"
        (.docSingle patientP1)
      = .ok { summary := some { filename := "a.json", total_resources := 1 },
              reports := [{ resource := Attr.batch "a.json",
                            issues := [validatorOfflineIssue] }] } := by
  refine ⟨⟨rfl, by decide⟩, ?_⟩
  have hc := claim_C6 2026 none "a.json" (.docSingle patientP1)
    [{ resource := some patientP1 }] rfl (by decide)
  exact hc.1

theorem newsTitle_ne_hypo (x : String) :
    "NEWS2 Score Alert: " ++ x ≠ "Hypoglycemia" :=
  append_ne_of_length_lt _ _ _ (by decide)

theorem newsTitle_ne_hyper (x : String) :
    "NEWS2 Score Alert: " ++ x ≠ "Hyperglycemic Crisis" := by
  intro h
  have hd : "NEWS2 Score Alert: ".data ++ x.data = "Hyperglycemic Crisis".data :=
    congrArg String.data h
  simp at hd

theorem newsTitle_ne_pain (x : String) :
    "NEWS2 Score Alert: " ++ x ≠ "Severe Pain" :=
  append_ne_of_length_lt _ _ _ (by decide)

/-- Claim C8: an absent vital contributes 0 to every NEWS2 category, the
all-absent snapshot scores 0 and triggers no clinical rule at all, absent
glucose never yields a metabolic issue, and absent pain never yields the
severe-pain issue: absence is never reported. -/
theorem claim_C8 (p : PatientRec) (v : Vitals) :
    scoreResp none = 0 ∧ scoreO2 none = 0 ∧ scoreSys none = 0 ∧ scoreHr none = 0
    ∧ scoreGcs none = 0 ∧ scoreTemp none = 0
    ∧ (calculate_news2 {}).score = 0
    ∧ check_clinical_rules p {} = []
    ∧ (v.gluc = none → ∀ i ∈ check_clinical_rules p v,
        i.title ≠ "Hypoglycemia" ∧ i.title ≠ "Hyperglycemic Crisis")
    ∧ (v.pain = none → ∀ i ∈ check_clinical_rules p v, i.title ≠ "Severe Pain") := by
  refine ⟨rfl, rfl, rfl, rfl, rfl, rfl, rfl, rfl, ?_, ?_⟩
  · intro hg i hi
    rcases hp : v.pain with _ | pn <;>
      simp only [check_clinical_rules, hg, hp] at hi <;>
      split_ifs at hi <;>
      simp only [List.mem_append, List.mem_singleton, List.mem_nil_iff, List.nil_append,
        or_false, false_or] at hi <;>
      (repeat' rcases hi with hi | hi) <;>
      simp [newsAlertIssue, severePainIssue, newsTitle_ne_hypo, newsTitle_ne_hyper]
  · intro hp i hi
    rcases hg : v.gluc with _ | g <;>
      simp only [check_clinical_rules, hg, hp] at hi <;>
      split_ifs at hi <;>
      simp only [List.mem_append, List.mem_singleton, List.mem_nil_iff, List.nil_append,
        or_false, false_or] at hi <;>
      (repeat' rcases hi with hi | hi) <;>
      simp [newsAlertIssue, hypoglycemiaIssue, hyperglycemiaIssue, newsTitle_ne_pain]

/-- Witness for `claim_C8` on the all-absent snapshot. -/
theorem claim_C8_witness :
    (({} : Vitals).gluc = none ∧ ({} : Vitals).pain = none)
    ∧ ((calculate_news2 {}).score = 0
       ∧ check_clinical_rules freshPatient {} = []
       ∧ (∀ i ∈ check_clinical_rules freshPatient {},
            i.title ≠ "Hypoglycemia" ∧ i.title ≠ "Hyperglycemic Crisis")
       ∧ (∀ i ∈ check_clinical_rules freshPatient {}, i.title ≠ "Severe Pain")) := by
  have h := claim_C8 freshPatient {}
  exact ⟨⟨rfl, rfl⟩, h.2.2.2.2.2.2.1, h.2.2.2.2.2.2.2.1,
    h.2.2.2.2.2.2.2.2.1 rfl, h.2.2.2.2.2.2.2.2.2 rfl⟩

/-- Witness for `claim_C10` at a subject-less `Condition` resource. -/
theorem claim_C10_witness :
    (condNoSubject.subjectReference = none)
    ∧ (normalize_id none = ""
       ∧ normalize_id (some (condNoSubject.subjectReference.getD "")) = ""
       ∧ mapLookup (passB (passA 2026 bundleNoId) bundleNoId) ""
           = some { name := "Unknown", age := 30, gender := "Unknown",
                    vitals := { hr := some 99 }, conditions := ["Chest pain"],
                    medications := ["Aspirin"] }) :=
  ⟨rfl, claim_C10 2026 condNoSubject rfl⟩

end FHIRGuard
